import Mathlib

/- Verification of the OneView KPI-dashboard repository against its
   natural-language specification.  Frontend components (DashboardPage,
   MetricCard, CampaignChart) are embedded from the JavaScript source;
   the backend aggregation/caching layer is not part of the source tree,
   so it is modelled from the specification text, as marked on each
   definition. -/

namespace OneView

/-- JavaScript `a || b` for an optional numeric field: `undefined`, `null`
and `0` are falsy, so they fall through to the default. -/
def jsOrNum (a : Option ℚ) (b : ℚ) : ℚ :=
  match a with
  | none => b
  | some v => if v = 0 then b else v

/-- JavaScript `a || b` for an optional string field: `undefined`, `null`
and the empty string are falsy, so they fall through to the default. -/
def jsOrStr (a : Option String) (b : String) : String :=
  match a with
  | none => b
  | some s => if s = "" then b else s

/-- A campaign record as delivered by the backend to `DashboardPage`:
every field may be absent. -/
structure RawCampaign where
  name : Option String := none
  cost : Option ℚ := none
  spend : Option ℚ := none
  clicks : Option ℚ := none
  impressions : Option ℚ := none
  conversions : Option ℚ := none
  ctr : Option ℚ := none
  status : Option String := none
  platform : Option String := none
  deriving DecidableEq

/-- `DashboardPage` campaign mapping stage: spreads the campaign, tags its
platform, and coerces `cost` to `campaign.cost || campaign.spend || 0`. -/
def tagPlatform (p : String) (c : RawCampaign) : RawCampaign :=
  { c with platform := some p
           cost := some (jsOrNum c.cost (jsOrNum c.spend 0)) }

/-- `DashboardPage`: `apiCampaigns = [...googleAdsCampaigns, ...metaAdsCampaigns]`. -/
def apiCampaigns (g m : List RawCampaign) : List RawCampaign :=
  g.map (tagPlatform "Google Ads") ++ m.map (tagPlatform "Meta Ads")

/-- The hard-coded `mockCampaigns` array of `DashboardPage`. -/
def mockCampaigns : List RawCampaign :=
  [ { name := some "🎯 Brand Awareness Campaign", spend := some 2485.67,
      clicks := some 312, impressions := some 8945, conversions := some 28,
      ctr := some 3.49, status := some "ENABLED" },
    { name := some "🚀 Product Launch Campaign", spend := some 1876.23,
      clicks := some 245, impressions := some 7256, conversions := some 19,
      ctr := some 3.38, status := some "ENABLED" },
    { name := some "🔄 Retargeting Campaign", spend := some 892.45,
      clicks := some 156, impressions := some 3890, conversions := some 22,
      ctr := some 4.01, status := some "ENABLED" },
    { name := some "🏷️ Black Friday Sale", spend := some 3254.89,
      clicks := some 423, impressions := some 12456, conversions := some 67,
      ctr := some 3.40, status := some "PAUSED" },
    { name := some "📱 Mobile App Install", spend := some 567.34,
      clicks := some 89, impressions := some 2134, conversions := some 12,
      ctr := some 4.17, status := some "ENABLED" },
    { name := some "🌟 Holiday Promotion", spend := some 1456.78,
      clicks := some 198, impressions := some 5432, conversions := some 31,
      ctr := some 3.64, status := some "PAUSED" } ]

/-- `campaignsToShow = apiCampaigns.length > 0 ? apiCampaigns : mockCampaigns`. -/
def campaignsToShow (g m : List RawCampaign) : List RawCampaign :=
  if 0 < (apiCampaigns g m).length then apiCampaigns g m else mockCampaigns

/-- `isUsingMockData = apiCampaigns.length === 0`. -/
def isUsingMockData (g m : List RawCampaign) : Bool :=
  (apiCampaigns g m).length == 0

/-- The "Demo Data" banner is rendered exactly when `isUsingMockData` holds
(`{isUsingMockData && (...)}` in the JSX). -/
def demoIndicatorShown (g m : List RawCampaign) : Bool :=
  isUsingMockData g m

/-- One rendered row of the admin campaign table, cell by cell. -/
structure CampaignRow where
  nameCell : Option String
  platformCell : String
  costCell : ℚ
  clicksCell : ℚ
  ctrCell : ℚ
  conversionsCell : ℚ
  statusRunningStyle : Bool
  statusCell : String
  deriving DecidableEq

/-- The campaign-table row rendering of `DashboardPage`: each numeric cell is
`(campaign.field || 0)`, cost is `(campaign.cost || campaign.spend || 0)`,
the status badge is green iff `status === ENABLED || status === ACTIVE`,
and the status text is `campaign.status || UNKNOWN`. -/
def renderRow (c : RawCampaign) : CampaignRow :=
  { nameCell := c.name
    platformCell := jsOrStr c.platform "Unknown"
    costCell := jsOrNum c.cost (jsOrNum c.spend 0)
    clicksCell := jsOrNum c.clicks 0
    ctrCell := jsOrNum c.ctr 0
    conversionsCell := jsOrNum c.conversions 0
    statusRunningStyle := c.status == some "ENABLED" || c.status == some "ACTIVE"
    statusCell := jsOrStr c.status "UNKNOWN" }

/-- The table body maps `renderRow` over `campaignsToShow`. -/
def renderTable (cs : List RawCampaign) : List CampaignRow :=
  cs.map renderRow

/-- The `key_metrics` field a metric card reads its value from. -/
inductive MetricField where
  | total_ad_spend
  | total_revenue
  | roas
  | cost_per_conversion
  | total_impressions
  | total_clicks
  | ctr
  | total_sessions
  | bounce_rate
  | conversion_rate
  deriving DecidableEq

/-- One card descriptor produced by `getRoleMetrics`: its title, the
`key_metrics` field it displays, and its format type. -/
structure MetricCardDesc where
  title : String
  field : MetricField
  vtype : String
  deriving DecidableEq

/-- `DashboardPage.getRoleMetrics`: returns `[]` when `data`/`key_metrics`
is missing, then switches on the role; the `default` arm serves admin and
any other role. -/
def getRoleMetrics (key_metrics_present : Bool) (role : String) :
    List MetricCardDesc :=
  if key_metrics_present = false then []
  else if role = "finance" then
    [ { title := "Total Ad Spend", field := MetricField.total_ad_spend, vtype := "currency" },
      { title := "Total Revenue", field := MetricField.total_revenue, vtype := "currency" },
      { title := "ROAS", field := MetricField.roas, vtype := "decimal" },
      { title := "Cost per Conversion", field := MetricField.cost_per_conversion, vtype := "currency" } ]
  else if role = "marketing" then
    [ { title := "Total Impressions", field := MetricField.total_impressions, vtype := "count" },
      { title := "Total Clicks", field := MetricField.total_clicks, vtype := "count" },
      { title := "Click-Through Rate", field := MetricField.ctr, vtype := "percentage" },
      { title := "Total Sessions", field := MetricField.total_sessions, vtype := "count" },
      { title := "Bounce Rate", field := MetricField.bounce_rate, vtype := "percentage" },
      { title := "Conversion Rate", field := MetricField.conversion_rate, vtype := "percentage" } ]
  else
    [ { title := "Total Ad Spend", field := MetricField.total_ad_spend, vtype := "currency" },
      { title := "Total Revenue", field := MetricField.total_revenue, vtype := "currency" },
      { title := "Total Impressions", field := MetricField.total_impressions, vtype := "count" },
      { title := "Total Clicks", field := MetricField.total_clicks, vtype := "count" },
      { title := "Total Sessions", field := MetricField.total_sessions, vtype := "count" },
      { title := "ROAS", field := MetricField.roas, vtype := "decimal" } ]

/-- The `key_metrics` fields selected for a role (with data present). -/
def roleFields (role : String) : List MetricField :=
  (getRoleMetrics true role).map MetricCardDesc.field

/-- One entry of a provider's `historical_data` series. -/
structure DayEntry where
  date : Option String := none
  spend : Option ℚ := none
  clicks : Option ℚ := none
  impressions : Option ℚ := none
  conversions : Option ℚ := none
  sessions : Option ℚ := none
  deriving DecidableEq

/-- The per-provider payload shape the frontend reads. -/
structure SourceMetrics where
  historical_data : Option (List DayEntry) := none
  campaigns : Option (List RawCampaign) := none
  data_source : Option String := none
  deriving DecidableEq

/-- The KPI payload (`response.data`) as read by `DashboardPage`. -/
structure KpiData where
  google_ads : Option SourceMetrics := none
  meta_ads : Option SourceMetrics := none
  analytics : Option SourceMetrics := none
  deriving DecidableEq

/-- `chartData = kpiData?.google_ads?.historical_data || []`. -/
def chartData (k : KpiData) : List DayEntry :=
  ((k.google_ads.bind SourceMetrics.historical_data).getD [])

/-- `last30Days = chartData.slice(-30).reverse()`: JavaScript `slice(-30)`
keeps the last `min 30 n` elements, i.e. drops `n - 30` from the front. -/
def last30Days (k : KpiData) : List DayEntry :=
  ((chartData k).drop ((chartData k).length - 30)).reverse

/-- A JavaScript value as it can reach `MetricCard`'s `value` prop. -/
inductive JsVal where
  | jnull
  | jundef
  | jstr (s : String)
  | jnum (q : ℚ)
  | jnan
  deriving DecidableEq

/-- Digit-group a natural number's reversed digit list with commas
(helper for the `en-US` thousands separators). -/
def groupRev : List Char → List Char
  | a :: b :: c :: d :: rest => a :: b :: c :: ',' :: groupRev (d :: rest)
  | l => l

/-- Render a natural number with `en-US` thousands separators. -/
def groupNat (n : Nat) : String :=
  String.mk ((groupRev (Nat.repr n).data.reverse).reverse)

/-- Round `q * scale` to the nearest integer, halves away from zero (the
default rounding of `Intl.NumberFormat` and `toFixed`), computed on the
rational's numerator and denominator with integer arithmetic. -/
def roundScaled (q : ℚ) (scale : Nat) : ℤ :=
  let a : ℤ := q.num * scale
  let b : ℤ := q.den
  if a < 0 then -((2 * (-a) + b) / (2 * b)) else (2 * a + b) / (2 * b)

/-- Model of JavaScript `Number.prototype.toFixed(digits)` on exact
rationals: fixed-point rendering with `digits` fraction digits. -/
def toFixedQ (digits : Nat) (q : ℚ) : String :=
  let m : ℤ := roundScaled q (10 ^ digits)
  let a : Nat := m.natAbs
  let ip : Nat := a / 10 ^ digits
  let fp : Nat := a % 10 ^ digits
  let fs : String := Nat.repr fp
  (if m < 0 then "-" else "") ++ Nat.repr ip ++
    (if digits = 0 then ""
     else "." ++ String.mk (List.replicate (digits - fs.length) '0') ++ fs)

/-- Model of `Intl.NumberFormat(en-US, currency USD, 0 fraction digits)`:
a dollar sign, the rounded magnitude with thousands separators, and a
leading minus for negative amounts. -/
def currencyUSD (q : ℚ) : String :=
  let m : ℤ := roundScaled q 1
  (if m < 0 then "-$" else "$") ++ groupNat m.natAbs

/-- Model of default `Intl.NumberFormat(en-US)`: thousands separators and
up to three fraction digits, trailing zeros trimmed. -/
def countFmt (q : ℚ) : String :=
  let m : ℤ := roundScaled q 1000
  let a : Nat := m.natAbs
  let ip : Nat := a / 1000
  let fp : Nat := a % 1000
  let base : String := (if m < 0 then "-" else "") ++ groupNat ip
  if fp = 0 then base
  else
    let fs : String := Nat.repr fp
    let padded : List Char := List.replicate (3 - fs.length) '0' ++ fs.data
    base ++ "." ++ String.mk (padded.reverse.dropWhile (· = '0')).reverse

/-- Numeric value of a digit string. -/
def digitsVal (l : List Char) : Nat :=
  l.foldl (fun acc c => acc * 10 + (c.toNat - '0'.toNat)) 0

/-- Model of JavaScript `parseFloat` restricted to plain decimal literals:
skips leading whitespace, reads an optional sign, integer digits and an
optional fraction, ignores any trailing junk; `none` when no digits can
be read (`parseFloat` returns `NaN` there). -/
def parseFloatQ (s : String) : Option ℚ :=
  let l := s.data.dropWhile (fun c => c = ' ' ∨ c = '\t' ∨ c = '\n' ∨ c = '\r')
  let sl : ℤ × List Char :=
    match l with
    | '-' :: rest => (-1, rest)
    | '+' :: rest => (1, rest)
    | _ => (1, l)
  let intDigits := sl.2.takeWhile Char.isDigit
  let rest := sl.2.dropWhile Char.isDigit
  let fracDigits :=
    match rest with
    | '.' :: r => r.takeWhile Char.isDigit
    | _ => []
  if intDigits.isEmpty ∧ fracDigits.isEmpty then none
  else some (mkRat
    (sl.1 * (digitsVal intDigits * 10 ^ fracDigits.length + digitsVal fracDigits))
    (10 ^ fracDigits.length))

/-- The `switch (metricType)` of `MetricCard.formatValue` on an already
numeric value. -/
def formatNum (metricType : String) (q : ℚ) : String :=
  if metricType = "currency" then currencyUSD q
  else if metricType = "percentage" then toFixedQ 1 q ++ "%"
  else if metricType = "decimal" then toFixedQ 2 q
  else countFmt q

/-- `MetricCard.formatValue`: `N/A` for `null`/`undefined`; strings are
passed through `parseFloat` first; anything that is `NaN` after that is
returned unchanged; numbers are formatted per `metricType`. -/
def formatValue (val : JsVal) (metricType : String) : JsVal :=
  match val with
  | JsVal.jnull => JsVal.jstr "N/A"
  | JsVal.jundef => JsVal.jstr "N/A"
  | JsVal.jstr s =>
    match parseFloatQ s with
    | none => JsVal.jstr s
    | some q => JsVal.jstr (formatNum metricType q)
  | JsVal.jnan => JsVal.jnan
  | JsVal.jnum q => JsVal.jstr (formatNum metricType q)

/-- Modelled from the spec: the combined totals the Aggregator computes
from all providers' normalized metrics (the backend aggregation code is
not part of the source tree). -/
structure CombinedTotals where
  total_ad_spend : ℚ
  total_revenue : ℚ
  total_impressions : ℚ
  total_clicks : ℚ
  total_conversions : ℚ
  total_sessions : ℚ
  deriving DecidableEq

/-- Modelled from the spec: `ctr = total_clicks / total_impressions * 100`,
defined as 0 when `total_impressions == 0`. -/
def ctr (t : CombinedTotals) : ℚ :=
  if t.total_impressions = 0 then 0
  else t.total_clicks / t.total_impressions * 100

/-- Modelled from the spec: `roas = total_revenue / total_ad_spend`,
defined as 0 when `total_ad_spend == 0`. -/
def roas (t : CombinedTotals) : ℚ :=
  if t.total_ad_spend = 0 then 0
  else t.total_revenue / t.total_ad_spend

/-- Modelled from the spec: `cost_per_conversion = total_ad_spend /
total_conversions`, defined as 0 when `total_conversions == 0`. -/
def cost_per_conversion (t : CombinedTotals) : ℚ :=
  if t.total_conversions = 0 then 0
  else t.total_ad_spend / t.total_conversions

/-- Modelled from the spec: `conversion_rate = total_conversions /
total_clicks * 100`, defined as 0 when `total_clicks == 0`. -/
def conversion_rate (t : CombinedTotals) : ℚ :=
  if t.total_clicks = 0 then 0
  else t.total_conversions / t.total_clicks * 100

/-- Modelled from the spec: the per-provider aggregate totals one
normalized `SourceMetrics` contributes to the snapshot (backend not in
the source tree). -/
structure SrcTotals where
  provider : String
  spend : ℚ := 0
  revenue : ℚ := 0
  impressions : ℚ := 0
  clicks : ℚ := 0
  conversions : ℚ := 0
  sessions : ℚ := 0
  bounce_rate : ℚ := 0
  deriving DecidableEq

/-- Modelled from the spec: summing the successful providers' totals. -/
def sumTotals (ms : List SrcTotals) : CombinedTotals :=
  { total_ad_spend := (ms.map SrcTotals.spend).sum
    total_revenue := (ms.map SrcTotals.revenue).sum
    total_impressions := (ms.map SrcTotals.impressions).sum
    total_clicks := (ms.map SrcTotals.clicks).sum
    total_conversions := (ms.map SrcTotals.conversions).sum
    total_sessions := (ms.map SrcTotals.sessions).sum }

/-- Modelled from the spec: the fixed `key_metrics` mapping of a
`KpiSnapshot`. -/
structure KeyMetrics where
  total_ad_spend : ℚ
  total_revenue : ℚ
  total_impressions : ℚ
  total_clicks : ℚ
  total_sessions : ℚ
  roas : ℚ
  ctr : ℚ
  cost_per_conversion : ℚ
  bounce_rate : ℚ
  conversion_rate : ℚ
  deriving DecidableEq

/-- Modelled from the spec: the unit of caching, created only by the
Aggregator on a successful merge. -/
structure KpiSnapshot where
  key_metrics : KeyMetrics
  deriving DecidableEq

/-- Modelled from the spec: building a `KpiSnapshot` from the successful
providers' totals; `bounce_rate` is taken directly from the analytics
source's reported value (0 when the analytics source is absent). -/
def mkSnapshot (ms : List SrcTotals) : KpiSnapshot :=
  let t := sumTotals ms
  { key_metrics :=
    { total_ad_spend := t.total_ad_spend
      total_revenue := t.total_revenue
      total_impressions := t.total_impressions
      total_clicks := t.total_clicks
      total_sessions := t.total_sessions
      roas := roas t
      ctr := ctr t
      cost_per_conversion := cost_per_conversion t
      bounce_rate :=
        match ms.find? (fun m => m.provider == "analytics") with
        | some a => a.bounce_rate
        | none => 0
      conversion_rate := conversion_rate t } }

/-- Modelled from the spec: the cache TTL, "a fixed configuration value
(5 minutes)", in seconds. -/
def TTL : Nat := 300

/-- Modelled from the spec: the process-wide cache entry wrapping at most
one `KpiSnapshot` with its `created_at` timestamp and counters. -/
structure CacheState where
  entry : Option (KpiSnapshot × Nat) := none
  hit_count : Nat := 0
  miss_count : Nat := 0
  deriving DecidableEq

/-- Modelled from the spec: `isExpired`, i.e. `now - created_at >= TTL`
(an empty cache counts as expired). -/
def CacheState.isExpired (c : CacheState) (now : Nat) : Bool :=
  match c.entry with
  | none => true
  | some (_, t0) => TTL ≤ now - t0

/-- Modelled from the spec: `get` returns the current entry if present and
`now - created_at < TTL`, otherwise signals Empty (`none`) without
deleting the stale entry; the returned state is the cache afterwards. -/
def CacheState.get (c : CacheState) (now : Nat) :
    Option KpiSnapshot × CacheState :=
  match c.entry with
  | none => (none, c)
  | some (s, t0) => if now - t0 < TTL then (some s, c) else (none, c)

/-- Modelled from the spec: `put` atomically replaces the entry and resets
`created_at` to now. -/
def CacheState.put (c : CacheState) (s : KpiSnapshot) (now : Nat) : CacheState :=
  { c with entry := some (s, now) }

/-- Modelled from the spec: `clear` empties the entry. -/
def CacheState.clear (c : CacheState) : CacheState :=
  { c with entry := none }

/-- Modelled from the spec: the aggregation-wide error taxonomy. -/
inductive AggregationError where
  | AllSourcesUnavailable
  deriving DecidableEq

/-- Modelled from the spec: the refresh outcome of `getSnapshot` once every
provider adapter has either produced normalized totals or failed (`none`).
If at least one provider succeeded the merged snapshot is returned fresh
(`false`); if all failed, a prior (possibly stale) snapshot is served
(`true` marks staleness, visible through `cache_stats`); with no prior
snapshot the call fails with `AllSourcesUnavailable`. -/
def getSnapshotResult (results : List (Option SrcTotals))
    (prior : Option KpiSnapshot) :
    Except AggregationError (KpiSnapshot × Bool) :=
  if results.filterMap id = [] then
    match prior with
    | some p => Except.ok (p, true)
    | none => Except.error AggregationError.AllSourcesUnavailable
  else Except.ok (mkSnapshot (results.filterMap id), false)

/-- Modelled from the spec: the thread-local state of one `getSnapshot`
caller in the single-flight discipline. -/
inductive CallerState where
  | start (forced : Bool)
  | leading
  | waiting
  | done (result : KpiSnapshot)
  deriving DecidableEq

/-- Modelled from the spec: the shared state for one refresh window —
the cache entry (`none` while expired/empty), the single-flight guard,
the number of provider fetch rounds performed, and each caller's state. -/
structure FlightState (N : Nat) where
  cache : Option KpiSnapshot
  inflight : Bool
  fetches : Nat
  thr : Fin N → CallerState

/-- A scheduling event: some caller enters, the leader publishes, or a
waiting caller picks up the published result. -/
inductive FlightLabel (N : Nat) where
  | enter (i : Fin N)
  | publish (i : Fin N)
  | resume (i : Fin N)

/-- Modelled from the spec: one interleaving step of the refresh protocol.
A non-forced caller entering with a fresh cache takes the hit; a caller
finding the cache expired/empty (or any forced caller) acquires the guard
when free — performing the one provider fetch round — or else joins the
in-flight refresh; the leader publishes the fetched snapshot `pv`; a
waiting caller resumes with the published result. -/
inductive FlightStep (pv : KpiSnapshot) {N : Nat} :
    FlightState N → FlightLabel N → FlightState N → Prop where
  | enterHit (s : FlightState N) (i : Fin N) (v : KpiSnapshot) :
      s.thr i = CallerState.start false → s.cache = some v →
      FlightStep pv s (FlightLabel.enter i)
        { s with thr := Function.update s.thr i (CallerState.done v) }
  | enterLead (s : FlightState N) (i : Fin N) (f : Bool) :
      s.thr i = CallerState.start f → s.inflight = false →
      (f = true ∨ s.cache = none) →
      FlightStep pv s (FlightLabel.enter i)
        { s with inflight := true
                 fetches := s.fetches + 1
                 thr := Function.update s.thr i CallerState.leading }
  | enterWait (s : FlightState N) (i : Fin N) (f : Bool) :
      s.thr i = CallerState.start f → s.inflight = true →
      (f = true ∨ s.cache = none) →
      FlightStep pv s (FlightLabel.enter i)
        { s with thr := Function.update s.thr i CallerState.waiting }
  | publishDone (s : FlightState N) (i : Fin N) :
      s.thr i = CallerState.leading →
      FlightStep pv s (FlightLabel.publish i)
        { s with cache := some pv
                 inflight := false
                 thr := Function.update s.thr i (CallerState.done pv) }
  | resumeDone (s : FlightState N) (i : Fin N) (v : KpiSnapshot) :
      s.thr i = CallerState.waiting → s.inflight = false → s.cache = some v →
      FlightStep pv s (FlightLabel.resume i)
        { s with thr := Function.update s.thr i (CallerState.done v) }

/-- The claim's arrival condition: every caller enters while the cache is
expired/empty or while a refresh is in flight. -/
def staleArrival {N : Nat} (s : FlightState N) : FlightLabel N → Prop
  | FlightLabel.enter _ => s.cache = none ∨ s.inflight = true
  | _ => True

/-- Executions of the refresh protocol in which every arrival satisfies
`staleArrival`. -/
inductive FlightExec (pv : KpiSnapshot) {N : Nat} :
    FlightState N → FlightState N → Prop where
  | stop (s : FlightState N) : FlightExec pv s s
  | tail {s t u : FlightState N} {l : FlightLabel N} :
      FlightExec pv s t → FlightStep pv t l u → staleArrival t l →
      FlightExec pv s u

/-- The initial state of a refresh window: expired/empty cache, the guard
free, no fetches yet, every caller about to enter (`forced` says which
callers are forced refreshes). -/
def initFlight (N : Nat) (forced : Fin N → Bool) : FlightState N :=
  { cache := none
    inflight := false
    fetches := 0
    thr := fun i => CallerState.start (forced i) }

/-- The protocol invariant: the window is (1) untouched, (2) mid-refresh
with a unique leader and exactly one fetch performed, or (3) published
with the fetched snapshot cached. -/
def FlightInv (pv : KpiSnapshot) {N : Nat} (s : FlightState N) : Prop :=
  (s.cache = none ∧ s.inflight = false ∧ s.fetches = 0 ∧
    ∀ i, ∃ f, s.thr i = CallerState.start f)
  ∨ (s.cache = none ∧ s.inflight = true ∧ s.fetches = 1 ∧
    ∃ j, s.thr j = CallerState.leading ∧
      ∀ i, i ≠ j →
        (∃ f, s.thr i = CallerState.start f) ∨ s.thr i = CallerState.waiting)
  ∨ (s.cache = some pv ∧ s.inflight = false ∧ s.fetches = 1 ∧
    ∀ i, (∃ f, s.thr i = CallerState.start f) ∨ s.thr i = CallerState.waiting
      ∨ s.thr i = CallerState.done pv)

/-- A concrete snapshot for exercising the protocol. -/
def pv0 : KpiSnapshot := mkSnapshot []

/-- A concrete arrival pattern: caller 0 plain, caller 1 forced. -/
def forced0 : Fin 2 → Bool := fun i => decide (i.val = 1)

/-- A concrete two-caller refresh window, step by step. -/
def flight0 : FlightState 2 := initFlight 2 forced0

/-- After caller 0 acquires the guard and starts the one fetch round. -/
def flight1 : FlightState 2 :=
  { flight0 with inflight := true
                 fetches := flight0.fetches + 1
                 thr := Function.update flight0.thr 0 CallerState.leading }

/-- After the forced caller 1 joins the in-flight refresh. -/
def flight2 : FlightState 2 :=
  { flight1 with thr := Function.update flight1.thr 1 CallerState.waiting }

/-- After caller 0 publishes the fetched snapshot. -/
def flight3 : FlightState 2 :=
  { flight2 with cache := some pv0
                 inflight := false
                 thr := Function.update flight2.thr 0 (CallerState.done pv0) }

/-- After caller 1 resumes with the published snapshot. -/
def flight4 : FlightState 2 :=
  { flight3 with thr := Function.update flight3.thr 1 (CallerState.done pv0) }

/-- A five-day sample series for exercising the chart slice. -/
def sampleDays : List DayEntry :=
  [ { date := some "d1" }, { date := some "d2" }, { date := some "d3" },
    { date := some "d4" }, { date := some "d5" } ]

/-- A sample payload whose google_ads source carries `sampleDays`. -/
def sampleKpi : KpiData :=
  { google_ads := some { historical_data := some sampleDays } }

/-- Claim C2: the Aggregator's derived ratios follow division-with-zero-guard
semantics — each ratio equals its defining quotient when its denominator is
nonzero and equals 0 when the denominator is 0, so it is never an infinity
and never an error. -/
theorem derived_ratio_zero_guard (t : CombinedTotals) :
    (t.total_impressions = 0 → ctr t = 0) ∧
    (t.total_impressions ≠ 0 →
      ctr t = t.total_clicks / t.total_impressions * 100) ∧
    (t.total_ad_spend = 0 → roas t = 0) ∧
    (t.total_ad_spend ≠ 0 → roas t = t.total_revenue / t.total_ad_spend) ∧
    (t.total_conversions = 0 → cost_per_conversion t = 0) ∧
    (t.total_conversions ≠ 0 →
      cost_per_conversion t = t.total_ad_spend / t.total_conversions) ∧
    (t.total_clicks = 0 → conversion_rate t = 0) ∧
    (t.total_clicks ≠ 0 →
      conversion_rate t = t.total_conversions / t.total_clicks * 100) := by
  refine ⟨?_, ?_, ?_, ?_, ?_, ?_, ?_, ?_⟩ <;> intro h <;>
    simp [ctr, roas, cost_per_conversion, conversion_rate, h]

/-- Witness for C2: the zero-guard branches at all-zero totals, and the
spec's scenario `roas = 250 / 100 = 2.5`. -/
theorem derived_ratio_zero_guard_w :
    ctr ⟨0, 0, 0, 0, 0, 0⟩ = 0 ∧ roas ⟨0, 0, 0, 0, 0, 0⟩ = 0 ∧
    cost_per_conversion ⟨0, 0, 0, 0, 0, 0⟩ = 0 ∧
    conversion_rate ⟨0, 0, 0, 0, 0, 0⟩ = 0 ∧
    roas ⟨100, 250, 0, 0, 0, 0⟩ = 5 / 2 := by
  refine ⟨(derived_ratio_zero_guard _).1 rfl,
    (derived_ratio_zero_guard _).2.2.1 rfl,
    (derived_ratio_zero_guard _).2.2.2.2.1 rfl,
    (derived_ratio_zero_guard _).2.2.2.2.2.2.1 rfl, ?_⟩
  rw [(derived_ratio_zero_guard _).2.2.2.1 (by norm_num)]
  norm_num

/-- Claim C3: TTL boundary — a snapshot stored at `t0` is served for every
request at `t` with `t - t0 < TTL` (TTL fixed at 5 minutes); for
`t - t0 ≥ TTL` the cache signals Empty (and reports expiry, triggering a
refresh) without deleting the stale entry. -/
theorem cache_ttl_boundary (c : CacheState) (snap : KpiSnapshot) (t0 t : Nat)
    (hle : t0 ≤ t) :
    TTL = 5 * 60 ∧
    (t - t0 < TTL → ((c.put snap t0).get t).1 = some snap) ∧
    (TTL ≤ t - t0 →
      ((c.put snap t0).get t).1 = none ∧
      ((c.put snap t0).get t).2.entry = some (snap, t0) ∧
      (c.put snap t0).isExpired t = true) := by
  refine ⟨rfl, ?_, ?_⟩
  · intro h
    simp [CacheState.put, CacheState.get, h]
  · intro h
    have h' : ¬ (t - t0 < TTL) := not_lt.mpr h
    refine ⟨?_, ?_, ?_⟩ <;>
      simp [CacheState.put, CacheState.get, CacheState.isExpired, h', h]

/-- Witness for C3: a snapshot stored at `t0 = 0` is a hit at `t = 299` and
Empty-but-retained at `t = 300`. -/
theorem cache_ttl_boundary_w :
    ((CacheState.put {} pv0 0).get 299).1 = some pv0 ∧
    ((CacheState.put {} pv0 0).get 300).1 = none ∧
    ((CacheState.put {} pv0 0).get 300).2.entry = some (pv0, 0) := by
  refine ⟨(cache_ttl_boundary {} pv0 0 299 (by norm_num)).2.1 (by decide),
    ((cache_ttl_boundary {} pv0 0 300 (by norm_num)).2.2 (by decide)).1,
    ((cache_ttl_boundary {} pv0 0 300 (by norm_num)).2.2 (by decide)).2.1⟩

/-- Claim C4: the refresh fails with `AllSourcesUnavailable` iff every
provider failed and no prior (even stale) snapshot exists; with at least
one success a fresh snapshot is returned, and with all failures but a
prior snapshot the stale snapshot is served with staleness marked. -/
theorem all_sources_unavailable_iff (results : List (Option SrcTotals))
    (prior : Option KpiSnapshot) :
    (getSnapshotResult results prior =
        Except.error AggregationError.AllSourcesUnavailable
      ↔ ((∀ r ∈ results, r = none) ∧ prior = none)) ∧
    ((∃ r ∈ results, r ≠ none) →
      ∃ snap, getSnapshotResult results prior = Except.ok (snap, false)) ∧
    (∀ p, (∀ r ∈ results, r = none) → prior = some p →
      getSnapshotResult results prior = Except.ok (p, true)) := by
  have hnil : results.filterMap id = [] ↔ ∀ r ∈ results, r = none := by
    rw [List.filterMap_eq_nil_iff]
    simp
  refine ⟨⟨?_, ?_⟩, ?_, ?_⟩
  · intro h
    by_cases hfm : results.filterMap id = []
    · rcases hp : prior with _ | p
      · exact ⟨hnil.mp hfm, rfl⟩
      · rw [hp] at h
        simp [getSnapshotResult, hfm] at h
    · simp [getSnapshotResult, hfm] at h
  · rintro ⟨hall, hp⟩
    simp [getSnapshotResult, hnil.mpr hall, hp]
  · rintro ⟨r, hr, hne⟩
    have hfm : ¬ results.filterMap id = [] := fun hfm => hne (hnil.mp hfm r hr)
    exact ⟨mkSnapshot (results.filterMap id), by simp [getSnapshotResult, hfm]⟩
  · intro p hall hp
    simp [getSnapshotResult, hnil.mpr hall, hp]

/-- Witness for C4: three failures with no prior snapshot fail, while
all-failures with a prior snapshot serves it stale. -/
theorem all_sources_unavailable_iff_w :
    getSnapshotResult [none, none, none] none =
        Except.error AggregationError.AllSourcesUnavailable ∧
    getSnapshotResult [none] (some pv0) = Except.ok (pv0, true) := by
  refine ⟨(all_sources_unavailable_iff _ _).1.mpr ⟨by simp, rfl⟩,
    (all_sources_unavailable_iff _ _).2.2 pv0 (by simp) rfl⟩

/-- Claim C5: the campaign table treats absent numeric fields as 0 — a
missing cost falls back to spend and then to 0, and missing clicks, ctr
and conversions each render as 0 — and the rendering is total: every
input record yields a rendered row. -/
theorem campaign_missing_defaults (cs : List RawCampaign) (c : RawCampaign) :
    (c.cost = none → c.spend = none → (renderRow c).costCell = 0) ∧
    (∀ v, c.cost = none → c.spend = some v → v ≠ 0 →
      (renderRow c).costCell = v) ∧
    (c.clicks = none → (renderRow c).clicksCell = 0) ∧
    (c.ctr = none → (renderRow c).ctrCell = 0) ∧
    (c.conversions = none → (renderRow c).conversionsCell = 0) ∧
    (renderTable cs).length = cs.length := by
  refine ⟨?_, ?_, ?_, ?_, ?_, ?_⟩
  · intro h1 h2
    simp [renderRow, jsOrNum, h1, h2]
  · intro v h1 h2 hv
    simp [renderRow, jsOrNum, h1, h2, hv]
  · intro h
    simp [renderRow, jsOrNum, h]
  · intro h
    simp [renderRow, jsOrNum, h]
  · intro h
    simp [renderRow, jsOrNum, h]
  · simp [renderTable]

/-- Witness for C5: the all-absent campaign renders a row of zeros, and a
one-record table renders one row. -/
theorem campaign_missing_defaults_w :
    (renderRow {}).costCell = 0 ∧ (renderRow {}).clicksCell = 0 ∧
    (renderRow {}).ctrCell = 0 ∧ (renderRow {}).conversionsCell = 0 ∧
    (renderTable [{}]).length = 1 := by
  refine ⟨(campaign_missing_defaults [{}] {}).1 rfl rfl,
    (campaign_missing_defaults [{}] {}).2.2.1 rfl,
    (campaign_missing_defaults [{}] {}).2.2.2.1 rfl,
    (campaign_missing_defaults [{}] {}).2.2.2.2.1 rfl,
    (campaign_missing_defaults [{}] {}).2.2.2.2.2⟩

/-- Claim C6: the per-role projection selects exactly the claimed
`key_metrics` fields — finance four, marketing six, every other role
(including admin) the default six — with `roas` in both the admin and the
finance projections. -/
theorem role_projection_fields :
    roleFields "finance" =
      [MetricField.total_ad_spend, MetricField.total_revenue,
       MetricField.roas, MetricField.cost_per_conversion] ∧
    roleFields "marketing" =
      [MetricField.total_impressions, MetricField.total_clicks,
       MetricField.ctr, MetricField.total_sessions,
       MetricField.bounce_rate, MetricField.conversion_rate] ∧
    (∀ role : String, role ≠ "finance" → role ≠ "marketing" →
      roleFields role =
        [MetricField.total_ad_spend, MetricField.total_revenue,
         MetricField.total_impressions, MetricField.total_clicks,
         MetricField.total_sessions, MetricField.roas]) ∧
    MetricField.roas ∈ roleFields "admin" ∧
    MetricField.roas ∈ roleFields "finance" := by
  refine ⟨by decide, by decide, ?_, by decide, by decide⟩
  intro role h1 h2
  simp [roleFields, getRoleMetrics, h1, h2]

/-- Witness for C6: the admin role gets the default projection. -/
theorem role_projection_fields_w :
    roleFields "admin" =
      [MetricField.total_ad_spend, MetricField.total_revenue,
       MetricField.total_impressions, MetricField.total_clicks,
       MetricField.total_sessions, MetricField.roas] :=
  role_projection_fields.2.2.1 "admin" (by decide) (by decide)

/-- Counterexample for C7: a campaign whose status is present but equal to
the empty string is displayed as `UNKNOWN`, not as its own (empty) status
string, because `status || UNKNOWN` treats the empty string as falsy. -/
theorem status_text_empty_cex :
    (renderRow { status := some "" }).statusCell = "UNKNOWN" ∧
    ¬ (renderRow { status := some "" }).statusCell = "" := by
  refine ⟨?_, ?_⟩ <;> simp [renderRow, jsOrStr]

/-- Claim C7 (amended): the badge is rendered in the running style iff the
status is `ENABLED` or `ACTIVE`; the displayed text is the campaign's own
status string when it is present and nonempty, and `UNKNOWN` when the
status is absent or empty. -/
theorem status_badge_running_equiv (c : RawCampaign) :
    ((renderRow c).statusRunningStyle = true ↔
      (c.status = some "ENABLED" ∨ c.status = some "ACTIVE")) ∧
    (∀ s, c.status = some s → s ≠ "" → (renderRow c).statusCell = s) ∧
    ((c.status = none ∨ c.status = some "") →
      (renderRow c).statusCell = "UNKNOWN") := by
  refine ⟨?_, ?_, ?_⟩
  · simp [renderRow]
  · intro s hs hne
    simp [renderRow, jsOrStr, hs, hne]
  · rintro (h | h) <;> simp [renderRow, jsOrStr, h]

/-- Witness for C7: an `ACTIVE` campaign gets the running style and shows
its own status text. -/
theorem status_badge_running_equiv_w :
    (renderRow { status := some "ACTIVE" }).statusRunningStyle = true ∧
    (renderRow { status := some "ACTIVE" }).statusCell = "ACTIVE" :=
  ⟨(status_badge_running_equiv _).1.mpr (Or.inr rfl),
   (status_badge_running_equiv _).2.1 "ACTIVE" rfl (by decide)⟩

/-- Claim C8: the demo campaign list is shown iff both provider campaign
lists are empty; the Demo Data indicator is rendered in exactly that case;
and the table is always entirely the provider campaigns or entirely the
mock list, never a mix. -/
theorem mock_substitution (g m : List RawCampaign) :
    (isUsingMockData g m = true ↔ (g = [] ∧ m = [])) ∧
    demoIndicatorShown g m = isUsingMockData g m ∧
    (g = [] → m = [] → campaignsToShow g m = mockCampaigns) ∧
    (¬ (g = [] ∧ m = []) → campaignsToShow g m = apiCampaigns g m) ∧
    (campaignsToShow g m = apiCampaigns g m ∨
      campaignsToShow g m = mockCampaigns) := by
  have hlen : (apiCampaigns g m).length = 0 ↔ (g = [] ∧ m = []) := by
    simp [apiCampaigns]
  refine ⟨?_, rfl, ?_, ?_, ?_⟩
  · simp [isUsingMockData, hlen]
  · intro hg hm
    simp [campaignsToShow, apiCampaigns, hg, hm]
  · intro h
    have hpos : 0 < (apiCampaigns g m).length := by
      rcases Nat.eq_zero_or_pos (apiCampaigns g m).length with h0 | hp
      · exact absurd (hlen.mp h0) h
      · exact hp
    simp [campaignsToShow, hpos]
  · by_cases hpos : 0 < (apiCampaigns g m).length
    · left
      simp [campaignsToShow, hpos]
    · right
      simp [campaignsToShow, hpos]

/-- Witness for C8: with both provider lists empty the mock list is shown
and flagged. -/
theorem mock_substitution_w :
    isUsingMockData [] [] = true ∧
    campaignsToShow [] [] = mockCampaigns :=
  ⟨(mock_substitution [] []).1.mpr ⟨rfl, rfl⟩,
   (mock_substitution [] []).2.2.1 rfl rfl⟩

/-- Claim C9: `MetricCard.formatValue` is total — `N/A` for null/undefined,
the input unchanged when it does not parse to a number, and otherwise a
formatted string: currency via `currencyUSD`, percentage as one decimal
plus a percent sign, decimal with two decimals, count with locale
grouping. -/
theorem format_value_total (v : JsVal) (mtype : String) :
    ((v = JsVal.jnull ∨ v = JsVal.jundef) →
      formatValue v mtype = JsVal.jstr "N/A") ∧
    (∀ s, v = JsVal.jstr s → parseFloatQ s = none →
      formatValue v mtype = v) ∧
    (v = JsVal.jnan → formatValue v mtype = v) ∧
    (∀ q, v = JsVal.jnum q →
      formatValue v mtype = JsVal.jstr (formatNum mtype q)) ∧
    (∀ s q, v = JsVal.jstr s → parseFloatQ s = some q →
      formatValue v mtype = JsVal.jstr (formatNum mtype q)) ∧
    (∀ q, formatNum "currency" q = currencyUSD q) ∧
    (∀ q, formatNum "percentage" q = toFixedQ 1 q ++ "%") ∧
    (∀ q, formatNum "decimal" q = toFixedQ 2 q) ∧
    (∀ q t, t ≠ "currency" → t ≠ "percentage" → t ≠ "decimal" →
      formatNum t q = countFmt q) := by
  refine ⟨?_, ?_, ?_, ?_, ?_, ?_, ?_, ?_, ?_⟩
  · rintro (rfl | rfl) <;> rfl
  · rintro s rfl h
    simp [formatValue, h]
  · rintro rfl
    rfl
  · rintro q rfl
    rfl
  · rintro s q rfl h
    simp [formatValue, h]
  · intro q
    rfl
  · intro q
    rfl
  · intro q
    rfl
  · intro q t h1 h2 h3
    simp [formatNum, h1, h2, h3]

/-- Witness for C9: a numeric 5 formats as `5.0%` under the percentage
type, and a non-numeric string passes through unchanged. -/
theorem format_value_total_w :
    formatValue (JsVal.jnum 5) "percentage" = JsVal.jstr "5.0%" ∧
    formatValue (JsVal.jstr "abc") "count" = JsVal.jstr "abc" := by
  constructor
  · rw [(format_value_total (JsVal.jnum 5) "percentage").2.2.2.1 5 rfl]
    decide
  · exact (format_value_total (JsVal.jstr "abc") "count").2.1 "abc" rfl
      (by decide)

/-- Claim C10: the dashboard charts read only the google_ads historical
series; the plotted series is the last `min 30 n` entries in reversed
order, and it is empty when the series is absent. -/
theorem charts_google_ads_last30 (k : KpiData) :
    (last30Days k).length = min 30 (chartData k).length ∧
    (∀ i, i < (last30Days k).length →
      (last30Days k)[i]? = (chartData k)[(chartData k).length - 1 - i]?) ∧
    (k.google_ads.bind SourceMetrics.historical_data = none →
      last30Days k = []) ∧
    (∀ k' : KpiData, k'.google_ads = k.google_ads →
      last30Days k' = last30Days k) := by
  refine ⟨?_, ?_, ?_, ?_⟩
  · simp [last30Days]
    omega
  · intro i hi
    have hi' : i < ((chartData k).drop ((chartData k).length - 30)).length := by
      simpa [last30Days] using hi
    rw [last30Days, List.getElem?_reverse hi', List.getElem?_drop]
    congr 1
    simp only [List.length_drop] at hi' ⊢
    omega
  · intro h
    simp [last30Days, chartData, h]
  · intro k' hk
    simp [last30Days, chartData, hk]

/-- Witness for C10: a five-entry series is plotted whole, in reverse. -/
theorem charts_google_ads_last30_w :
    (last30Days sampleKpi).length = 5 ∧
    (last30Days sampleKpi)[0]? = some { date := some "d5" } := by
  constructor
  · rw [(charts_google_ads_last30 sampleKpi).1]
    decide
  · rw [(charts_google_ads_last30 sampleKpi).2.1 0 (by decide)]
    decide

/-- Each protocol step under the stale-arrival condition preserves the
single-flight invariant. -/
theorem flightInv_step {pv : KpiSnapshot} {N : Nat} {s u : FlightState N}
    {l : FlightLabel N} (hinv : FlightInv pv s) (hstep : FlightStep pv s l u)
    (harr : staleArrival s l) : FlightInv pv u := by
  cases hstep with
  | enterHit i v hs hc =>
    rcases hinv with ⟨hc0, _, _, _⟩ | ⟨hc1, _, _, _⟩ | ⟨hc2, hf2, hn2, hall⟩
    · rw [hc0] at hc
      exact Option.noConfusion hc
    · rw [hc1] at hc
      exact Option.noConfusion hc
    · rw [hc2] at hc
      injection hc with hv
      refine Or.inr (Or.inr ⟨hc2, hf2, hn2, fun i' => ?_⟩)
      show (∃ f, Function.update s.thr i (CallerState.done v) i' = CallerState.start f) ∨
        Function.update s.thr i (CallerState.done v) i' = CallerState.waiting ∨
        Function.update s.thr i (CallerState.done v) i' = CallerState.done pv
      by_cases hii : i' = i
      · subst hii
        rw [Function.update_same]
        exact Or.inr (Or.inr (by rw [hv]))
      · rw [Function.update_noteq hii]
        exact hall i'
  | enterLead i f hs hf hg =>
    rcases hinv with ⟨hc0, hf0, hn0, hall⟩ | ⟨hc1, hf1, hn1, hrest⟩ | ⟨hc2, hf2, hn2, hall⟩
    · refine Or.inr (Or.inl ⟨hc0, rfl, by rw [hn0], i, ?_, ?_⟩)
      · show Function.update s.thr i CallerState.leading i = CallerState.leading
        rw [Function.update_same]
      · intro i' hne
        obtain ⟨f', hf'⟩ := hall i'
        refine Or.inl ⟨f', ?_⟩
        show Function.update s.thr i CallerState.leading i' = CallerState.start f'
        rw [Function.update_noteq hne]
        exact hf'
    · rw [hf1] at hf
      exact Bool.noConfusion hf
    · have harr' : s.cache = none ∨ s.inflight = true := harr
      rcases harr' with h | h
      · rw [hc2] at h
        exact Option.noConfusion h
      · rw [hf2] at h
        exact Bool.noConfusion h
  | enterWait i f hs hf hg =>
    rcases hinv with ⟨hc0, hf0, hn0, hall⟩ | ⟨hc1, hf1, hn1, j, hj, hall⟩ | ⟨hc2, hf2, hn2, hall⟩
    · rw [hf0] at hf
      exact Bool.noConfusion hf
    · have hij : i ≠ j := by
        intro heq
        rw [heq] at hs
        rw [hs] at hj
        exact CallerState.noConfusion hj
      refine Or.inr (Or.inl ⟨hc1, hf1, hn1, j, ?_, ?_⟩)
      · show Function.update s.thr i CallerState.waiting j = CallerState.leading
        rw [Function.update_noteq (Ne.symm hij)]
        exact hj
      · intro i' hne
        by_cases hii : i' = i
        · subst hii
          refine Or.inr ?_
          show Function.update s.thr i' CallerState.waiting i' = CallerState.waiting
          rw [Function.update_same]
        · rcases hall i' hne with ⟨f', hf'⟩ | hwt
          · refine Or.inl ⟨f', ?_⟩
            show Function.update s.thr i CallerState.waiting i' = CallerState.start f'
            rw [Function.update_noteq hii]
            exact hf'
          · refine Or.inr ?_
            show Function.update s.thr i CallerState.waiting i' = CallerState.waiting
            rw [Function.update_noteq hii]
            exact hwt
    · rw [hf2] at hf
      exact Bool.noConfusion hf
  | publishDone i hs =>
    rcases hinv with ⟨hc0, hf0, hn0, hall⟩ | ⟨hc1, hf1, hn1, j, hj, hall⟩ | ⟨hc2, hf2, hn2, hall⟩
    · obtain ⟨f, hf'⟩ := hall i
      rw [hs] at hf'
      exact CallerState.noConfusion hf'
    · have hij : i = j := by
        by_contra hne
        rcases hall i hne with ⟨f, hf'⟩ | hwt
        · rw [hs] at hf'
          exact CallerState.noConfusion hf'
        · rw [hs] at hwt
          exact CallerState.noConfusion hwt
      refine Or.inr (Or.inr ⟨rfl, rfl, hn1, fun i' => ?_⟩)
      show (∃ f, Function.update s.thr i (CallerState.done pv) i' = CallerState.start f) ∨
        Function.update s.thr i (CallerState.done pv) i' = CallerState.waiting ∨
        Function.update s.thr i (CallerState.done pv) i' = CallerState.done pv
      by_cases hii : i' = i
      · subst hii
        rw [Function.update_same]
        exact Or.inr (Or.inr rfl)
      · rw [Function.update_noteq hii]
        have hne' : i' ≠ j := by
          rw [← hij]
          exact hii
        rcases hall i' hne' with ⟨f, hf'⟩ | hwt
        · exact Or.inl ⟨f, hf'⟩
        · exact Or.inr (Or.inl hwt)
    · rcases hall i with ⟨f, hf'⟩ | hwt | hd
      · rw [hs] at hf'
        exact CallerState.noConfusion hf'
      · rw [hs] at hwt
        exact CallerState.noConfusion hwt
      · rw [hs] at hd
        exact CallerState.noConfusion hd
  | resumeDone i v hwt hf hc =>
    rcases hinv with ⟨hc0, _, _, _⟩ | ⟨hc1, _, _, _⟩ | ⟨hc2, hf2, hn2, hall⟩
    · rw [hc0] at hc
      exact Option.noConfusion hc
    · rw [hc1] at hc
      exact Option.noConfusion hc
    · rw [hc2] at hc
      injection hc with hv
      refine Or.inr (Or.inr ⟨hc2, hf2, hn2, fun i' => ?_⟩)
      show (∃ f, Function.update s.thr i (CallerState.done v) i' = CallerState.start f) ∨
        Function.update s.thr i (CallerState.done v) i' = CallerState.waiting ∨
        Function.update s.thr i (CallerState.done v) i' = CallerState.done pv
      by_cases hii : i' = i
      · subst hii
        rw [Function.update_same]
        exact Or.inr (Or.inr (by rw [hv]))
      · rw [Function.update_noteq hii]
        exact hall i'

/-- The invariant propagates along any stale-arrival execution. -/
theorem flightInv_exec {pv : KpiSnapshot} {N : Nat} {a s : FlightState N}
    (hexec : FlightExec pv a s) (ha : FlightInv pv a) : FlightInv pv s := by
  induction hexec with
  | stop => exact ha
  | tail _ hstep harr ih => exact flightInv_step ih hstep harr

/-- The initial window state satisfies the invariant. -/
theorem initFlight_inv (pv : KpiSnapshot) (N : Nat) (forced : Fin N → Bool) :
    FlightInv pv (initFlight N forced) :=
  Or.inl ⟨rfl, rfl, rfl, fun i => ⟨forced i, rfl⟩⟩

/-- Claim C1: single-flight — in any stale-arrival execution of N ≥ 2
concurrent `getSnapshot` callers (forced or not) that runs every caller to
completion, exactly one provider fetch round is performed and every caller
receives the same resulting snapshot. -/
theorem single_flight (pv : KpiSnapshot) (N : Nat) (forced : Fin N → Bool)
    (s : FlightState N) (hN : 2 ≤ N)
    (hexec : FlightExec pv (initFlight N forced) s)
    (hdone : ∀ i, ∃ v, s.thr i = CallerState.done v) :
    s.fetches = 1 ∧
      ∀ (i : Fin N) (v : KpiSnapshot),
        s.thr i = CallerState.done v → v = pv := by
  have hinv := flightInv_exec hexec (initFlight_inv pv N forced)
  have hpos : 0 < N := lt_of_lt_of_le (by norm_num) hN
  rcases hinv with ⟨_, _, _, hall⟩ | ⟨_, _, _, j, hj, _⟩ | ⟨_, _, hn, hall⟩
  · obtain ⟨v, hv⟩ := hdone ⟨0, hpos⟩
    obtain ⟨f, hf⟩ := hall ⟨0, hpos⟩
    rw [hv] at hf
    exact CallerState.noConfusion hf
  · obtain ⟨v, hv⟩ := hdone j
    rw [hv] at hj
    exact CallerState.noConfusion hj
  · refine ⟨hn, fun i v hv => ?_⟩
    rcases hall i with ⟨f, h⟩ | h | h
    · rw [hv] at h
      exact CallerState.noConfusion h
    · rw [hv] at h
      exact CallerState.noConfusion h
    · rw [hv] at h
      exact CallerState.done.inj h

/-- Witness for C1: a concrete two-caller window — a plain caller leads, a
forced caller arriving mid-flight coalesces — ends with one fetch and both
callers holding the published snapshot. -/
theorem single_flight_w : flight4.fetches = 1 := by
  have h01 : FlightStep pv0 flight0 (FlightLabel.enter 0) flight1 :=
    FlightStep.enterLead flight0 0 false rfl rfl (Or.inr rfl)
  have h12 : FlightStep pv0 flight1 (FlightLabel.enter 1) flight2 :=
    FlightStep.enterWait flight1 1 true rfl rfl (Or.inl rfl)
  have h23 : FlightStep pv0 flight2 (FlightLabel.publish 0) flight3 :=
    FlightStep.publishDone flight2 0 rfl
  have h34 : FlightStep pv0 flight3 (FlightLabel.resume 1) flight4 :=
    FlightStep.resumeDone flight3 1 pv0 rfl rfl rfl
  have hexec : FlightExec pv0 (initFlight 2 forced0) flight4 :=
    FlightExec.tail (FlightExec.tail (FlightExec.tail (FlightExec.tail
      (FlightExec.stop flight0) h01 (Or.inl rfl)) h12 (Or.inr rfl))
      h23 trivial) h34 trivial
  refine (single_flight pv0 2 forced0 flight4 (by norm_num) hexec ?_).1
  intro i
  fin_cases i
  · exact ⟨pv0, rfl⟩
  · exact ⟨pv0, rfl⟩

end OneView
